import Mathlib

/-!
Verification of the software-renderer repository (renderer.py, objreader.py).

The Python source is embedded shallowly:
  * float arithmetic is idealised as exact arithmetic (ℚ where only field
    operations and comparisons occur, ℝ where the transcendental functions
    sin, cos, sqrt, arccos of the `math` module appear);
  * Python `int()` truncation and `math.floor` are modelled explicitly;
  * the Python builtins `float(...)` / `int(...)` applied to file tokens are
    modelled by token inductives recording whether the conversion succeeds;
  * `random.randrange` in `colorize_facets` is modelled by an explicit
    colour-choice function argument.
-/

set_option maxRecDepth 4000

namespace SWRender

/-! objreader.py: convert_facets_to_edges (lines 20-39) -/

/-- Python `sorted([a, b])` for a two-element list. -/
def sorted2 (a b : ℤ) : List ℤ :=
  if a ≤ b then [a, b] else [b, a]

/-- The three candidate edges generated from one facet, in the order the code
generates them: `(f0,f1)`, `(f1,f2)`, `(f0,f2)`, each pair sorted ascending.
Index access models Python `facet[0]`, `facet[1]`, `facet[2]` (the code
assumes at least three indices; out-of-range defaults to 0 in the model). -/
def facetEdges (facet : List ℤ) : List (List ℤ) :=
  [sorted2 (facet.getD 0 0) (facet.getD 1 0),
   sorted2 (facet.getD 1 0) (facet.getD 2 0),
   sorted2 (facet.getD 0 0) (facet.getD 2 0)]

/-- One `if edge not in edges: edges.append(edge)` step of the code. -/
def addEdge (edges : List (List ℤ)) (e : List ℤ) : List (List ℤ) :=
  if e ∈ edges then edges else edges ++ [e]

/-- objreader.convert_facets_to_edges: derive the deduplicated edge list. -/
def convert_facets_to_edges (facets : List (List ℤ)) : List (List ℤ) :=
  facets.foldl
    (fun edges facet =>
      let edge1 := sorted2 (facet.getD 0 0) (facet.getD 1 0)
      let edge2 := sorted2 (facet.getD 1 0) (facet.getD 2 0)
      let edge3 := sorted2 (facet.getD 0 0) (facet.getD 2 0)
      addEdge (addEdge (addEdge edges edge1) edge2) edge3)
    []

/-- The flat stream of candidate edges of a facet list, in generation order. -/
def edgeStream (facets : List (List ℤ)) : List (List ℤ) :=
  facets.foldr (fun f acc => facetEdges f ++ acc) []

/-- Specification-side definition: keep the first occurrence of every element
of a list and drop all later duplicates ("first-seen order"). -/
def dedupFirst : List (List ℤ) → List (List ℤ)
  | [] => []
  | e :: rest => e :: dedupFirst (rest.filter (fun x => decide (x ≠ e)))
termination_by l => l.length
decreasing_by
simp only [List.length_cons]
exact Nat.lt_succ_of_le (List.length_filter_le _ _)

/-- The hard-coded default cube facet list (renderer.py lines 91-93). -/
def cubeFacets : List (List ℤ) :=
  [[0, 1, 2], [2, 3, 0], [1, 5, 6], [6, 2, 1],
   [5, 4, 7], [7, 6, 5], [4, 0, 3], [3, 7, 4],
   [3, 2, 6], [6, 7, 3], [0, 5, 1], [0, 4, 5]]

/-! renderer.py: painters_algorithm (lines 233-241) -/

/-- Average depth of the three vertices referenced by a facet
(`sum([depths[x] for x in facet[:3]]) / 3.0`; out-of-range access is
modelled with default 0). -/
def avg_depth (depths : List ℚ) (facet : List ℕ) : ℚ :=
  ((facet.take 3).map (fun i => depths.getD i 0)).sum / 3

/-- Scene.painters_algorithm: `sorted(facets, key=avg_depth, reverse=True)`.
Python `sorted` is a stable sort; with `reverse=True` an element `f` may be
placed before `g` exactly when `avg_depth g ≤ avg_depth f`, ties keeping
input order, which is the stable merge sort by that relation. -/
def painters_algorithm (depths : List ℚ) (facets : List (List ℕ)) : List (List ℕ) :=
  facets.mergeSort (fun f g => decide (avg_depth depths g ≤ avg_depth depths f))

/-! renderer.py: frame controller (render_loop, lines 313-351) -/

/-- TARGET_FRAME_TIME = 1.0 / 60.0. -/
def TARGET_FRAME_TIME : ℚ := 1 / 60

/-- FRAME_RATE_REFRESH = 1. -/
def FRAME_RATE_REFRESH : ℚ := 1

/-- The mutable module-level frame counters of renderer.py. -/
structure FrameState where
  fps : ℤ
  frame_rate_time : ℚ
  frame_rate_count : ℕ
  total_time : ℚ
deriving DecidableEq, Repr

/-- Initial values of the module-level counters (lines 15-19). -/
def initFrameState : FrameState := ⟨60, 0, 0, 0⟩

/-- The elapsed-plus-slept time of one frame:
`sleep_time = max(0, TARGET_FRAME_TIME - time_elapsed)`,
`cycle_time = time_elapsed + sleep_time`. -/
def cycleTime (time_elapsed : ℚ) : ℚ :=
  let sleep_time0 := TARGET_FRAME_TIME - time_elapsed
  let sleep_time := if sleep_time0 < 0 then 0 else sleep_time0
  time_elapsed + sleep_time

/-- render_loop: one frame of the frame controller, as a state transition on
the module-level counters, taking the frame's render time as input.
`FPS = int(FRAME_RATE_COUNT / FRAME_RATE_REFRESH)` is integer division by 1;
note `FRAME_RATE_COUNT += 1` runs after the refresh check. -/
def render_loop (s : FrameState) (time_elapsed : ℚ) : FrameState :=
  let cycle_time := cycleTime time_elapsed
  let frt := s.frame_rate_time + cycle_time
  if FRAME_RATE_REFRESH ≤ frt then
    { fps := (s.frame_rate_count : ℤ) / 1
      frame_rate_time := 0
      frame_rate_count := 0 + 1
      total_time := s.total_time + cycle_time }
  else
    { fps := s.fps
      frame_rate_time := frt
      frame_rate_count := s.frame_rate_count + 1
      total_time := s.total_time + cycle_time }

/-- Iterate render_loop over a list of per-frame render times. -/
def runFrames (s : FrameState) (ts : List ℚ) : FrameState :=
  ts.foldl render_loop s

/-- Number of frames at which the displayed-FPS refresh branch fires. -/
def fpsUpdateCount (s : FrameState) : List ℚ → ℕ
  | [] => 0
  | t :: ts =>
      (if FRAME_RATE_REFRESH ≤ s.frame_rate_time + cycleTime t then 1 else 0) +
        fpsUpdateCount (render_loop s t) ts

/-! renderer.py: handle_mouse_event (lines 354-363) -/

/-- handle_mouse_event, restricted to its effect on `camera_position[2]`:
button 4 zooms in (`+= 1`) only while the coordinate is negative,
button 5 zooms out (`-= 1`) unconditionally. -/
def handle_mouse_event (button : ℕ) (z : ℤ) : ℤ :=
  let z1 := if button = 4 then (if z < 0 then z + 1 else z) else z
  if button = 5 then z1 - 1 else z1

/-! renderer.py: full event alphabet acting on the camera state
(Scene.__init__ line 73-77, handle_mouse_event, handle_key_event,
handle_mouse_motion, and the auto-rotation step of render_model) -/

/-- The mutable camera/flag state of the Scene object. -/
structure SceneState where
  cam_x : ℚ
  cam_y : ℚ
  cam_z : ℤ
  rot_x : ℚ
  rot_y : ℚ
  rot_z : ℚ
  rotating : Bool
  filled : Bool
deriving DecidableEq, Repr

/-- Scene.__init__: camera_position = [0, 0, -10], camera_rotation = [0, 0, 0],
rotating = False, filled = False. -/
def initSceneState : SceneState := ⟨0, 0, -10, 0, 0, 0, false, false⟩

/-- Every program operation that can touch the camera state: a mouse button
press, one of the handled key presses, a mouse drag (`left`/`right` giving the
button states, with the relative motions of the two get_rel calls), or one
rendered frame (which auto-increments the rotation when `rotating`). -/
inductive Ev
  | mouseButton (button : ℕ)
  | keyR
  | keyF
  | keyB
  | keyOther
  | mouseMotion (left right : Bool) (dx1 dy1 dx2 : ℤ)
  | frame

/-- The state mutation performed by each event, following handle_mouse_event,
handle_key_event, handle_mouse_motion and render_model lines 154-158. -/
def handle_event (s : SceneState) (e : Ev) : SceneState :=
  match e with
  | .mouseButton b => { s with cam_z := handle_mouse_event b s.cam_z }
  | .keyR => { s with rotating := !s.rotating }
  | .keyF => { s with filled := !s.filled }
  | .keyB => { s with cam_z := -10, rot_x := 0, rot_y := 0, rot_z := 0 }
  | .keyOther => s
  | .mouseMotion left right dx1 dy1 dx2 =>
      let s1 := if left then
        { s with rot_x := s.rot_x + (dx1 : ℚ) * 0.02,
                 rot_y := s.rot_y + (dy1 : ℚ) * 0.02 }
        else s
      if right then { s1 with rot_z := s1.rot_z + (dx2 : ℚ) * 0.02 } else s1
  | .frame =>
      if s.rotating then
        { s with rot_x := s.rot_x + 0.02, rot_y := s.rot_y + 0.02,
                 rot_z := s.rot_z + 0.02 }
      else s

/-! renderer.py: per-vertex transform (render_model, lines 166-203),
over exact reals, with `math.sin` / `math.cos` as `Real.sin` / `Real.cos` -/

/-- A triple of real coordinates. -/
structure Vec3 where
  x : ℝ
  y : ℝ
  z : ℝ

/-- First rotation step (lines 172-174), driven by `camera_rotation[0]`:
`tmp = z; z = -x*sin r - z*cos r; x = -x*cos r + tmp*sin r`; `y` is untouched. -/
noncomputable def rotation_step1 (r : ℝ) (v : Vec3) : Vec3 :=
  ⟨-v.x * Real.cos r + v.z * Real.sin r, v.y, -v.x * Real.sin r - v.z * Real.cos r⟩

/-- Second rotation step (lines 176-178), driven by `camera_rotation[1]`:
`tmp = z; z = -y*sin r + z*cos r; y = y*cos r + tmp*sin r`; `x` is untouched. -/
noncomputable def rotation_step2 (r : ℝ) (v : Vec3) : Vec3 :=
  ⟨v.x, v.y * Real.cos r + v.z * Real.sin r, -v.y * Real.sin r + v.z * Real.cos r⟩

/-- Third rotation step (lines 180-182), driven by `camera_rotation[2]`:
`tmp = x; x = x*cos r - y*sin r; y = y*cos r + tmp*sin r`; `z` is untouched. -/
noncomputable def rotation_step3 (r : ℝ) (v : Vec3) : Vec3 :=
  ⟨v.x * Real.cos r - v.y * Real.sin r, v.y * Real.cos r + v.x * Real.sin r, v.z⟩

/-- The full rotation of one vertex: the three steps applied in program order,
each consuming the previous step's output. -/
noncomputable def rotate_vertex (rot : Vec3) (v : Vec3) : Vec3 :=
  rotation_step3 rot.z (rotation_step2 rot.y (rotation_step1 rot.x v))

/-- Specification-side definition, following the claim's words: an X-axis
rotation that leaves `x` fixed and maps `(y, z)` to
`(y*cos r - z*sin r, y*sin r + z*cos r)`. -/
noncomputable def claimed_rotation_x (r : ℝ) (v : Vec3) : Vec3 :=
  ⟨v.x, v.y * Real.cos r - v.z * Real.sin r, v.y * Real.sin r + v.z * Real.cos r⟩

/-- Camera parameters used by the transform. -/
structure Camera where
  position : Vec3
  rotation : Vec3
  distortion : ℝ

/-- The camera state set up in Scene.__init__ (lines 73-75):
position [0, 0, -10], rotation [0, 0, 0], distortion 512. -/
noncomputable def initCamera : Camera := ⟨⟨0, 0, -10⟩, ⟨0, 0, 0⟩, 512⟩

/-- Scene.__init__ line 76: light_source = [0.7, 0.7, -0.7]. -/
noncomputable def scene_light : Vec3 := ⟨0.7, 0.7, -0.7⟩

/-- Translation into camera space (lines 184-186): componentwise subtraction
of the camera position from the rotated vertex. -/
noncomputable def translated (cam : Camera) (v : Vec3) : Vec3 :=
  let w := rotate_vertex cam.rotation v
  ⟨w.x - cam.position.x, w.y - cam.position.y, w.z - cam.position.z⟩

open Classical in
/-- The divide-by-zero guard (lines 188-190): `if z == 0: z = 0.00001`. -/
noncomputable def depthGuard (z : ℝ) : ℝ :=
  if z = 0 then 0.00001 else z

open Classical in
/-- Python `int()`: truncation toward zero. -/
noncomputable def pyInt (x : ℝ) : ℤ :=
  if x < 0 then -⌊-x⌋ else ⌊x⌋

/-- A projected screen point (integral pixel coordinates). -/
structure ScreenPoint where
  sx : ℤ
  sy : ℤ

/-- The per-vertex transform of render_model (lines 166-203): rotate,
translate, guard the depth, project with the distortion factor about the
screen centre, truncate to integers; returns the screen point and the
stored depth (the guarded `z`). -/
noncomputable def transform (cam : Camera) (centre_x centre_y : ℝ) (v : Vec3) :
    ScreenPoint × ℝ :=
  let t := translated cam v
  let z := depthGuard t.z
  let screen_x := cam.distortion * t.x / z + centre_x
  let screen_y := cam.distortion * t.y / z + centre_y
  (⟨pyInt screen_x, pyInt screen_y⟩, z)

/-- Scene.__init__ lines 67-70: width 800, height 600 and the integer-division
screen centre (400, 300). -/
def centre_x : ℤ := 800 / 2

/-- The vertical screen centre. -/
def centre_y : ℤ := 600 / 2

/-! renderer.py: gouraud_shading (lines 243-281) -/

/-- An RGB colour with integer channels. -/
structure RGB where
  r : ℤ
  g : ℤ
  b : ℤ
deriving DecidableEq, Repr

/-- Scene.__init__ line 82: facet_colour = (100, 255, 100). -/
def scene_facet_colour : RGB := ⟨100, 255, 100⟩

/-- Euclidean length `math.sqrt(sum([x**2 for x in v]))` (lines 253-254). -/
noncomputable def vecLength (v : Vec3) : ℝ :=
  Real.sqrt (v.x ^ 2 + v.y ^ 2 + v.z ^ 2)

open Classical in
/-- The domain-error guard (lines 269-272):
`if angle > 1: angle = 1 elif angle < -1: angle = -1`. -/
noncomputable def clampAngle (a : ℝ) : ℝ :=
  if 1 < a then 1 else if a < -1 then -1 else a

/-- The surface normal of gouraud_shading (lines 249-261): the cross product
of the length-normalised edge vectors `b - a` and `c - a`. -/
noncomputable def facet_normal (a b c : Vec3) : Vec3 :=
  let ab : Vec3 := ⟨b.x - a.x, b.y - a.y, b.z - a.z⟩
  let ac : Vec3 := ⟨c.x - a.x, c.y - a.y, c.z - a.z⟩
  let lab := vecLength ab
  let lac := vecLength ac
  let nab : Vec3 := ⟨ab.x / lab, ab.y / lab, ab.z / lab⟩
  let nac : Vec3 := ⟨ac.x / lac, ac.y / lac, ac.z / lac⟩
  ⟨nab.y * nac.z - nab.z * nac.y,
   nab.z * nac.x - nab.x * nac.z,
   nab.x * nac.y - nab.y * nac.x⟩

/-- The raw light/normal dot product `angle` of lines 264-266, before the
domain guard. -/
noncomputable def facet_dot (light a b c : Vec3) : ℝ :=
  light.x * (facet_normal a b c).x + light.y * (facet_normal a b c).y +
    light.z * (facet_normal a b c).z

/-- The shading intensity `angle = acos(angle) / pi` of line 274, applied to
the clamped dot product. -/
noncomputable def facet_intensity (light a b c : Vec3) : ℝ :=
  Real.arccos (clampAngle (facet_dot light a b c)) / Real.pi

/-- Scene.gouraud_shading: each channel of the base colour is multiplied by
the intensity and floored (lines 277-279). -/
noncomputable def gouraud_shading (light : Vec3) (a b c : Vec3) (colour : RGB) : RGB :=
  ⟨⌊(colour.r : ℝ) * facet_intensity light a b c⌋,
   ⌊(colour.g : ℝ) * facet_intensity light a b c⌋,
   ⌊(colour.b : ℝ) * facet_intensity light a b c⌋⟩

/-! renderer.py: the colour drawn for a facet in filled mode
(render_model lines 208-222, colorize_facets lines 399-406) -/

/-- A facet as stored in the scene after loading a model file: three vertex
indices with the base colour appended by colorize_facets. -/
structure ColouredFacet where
  i0 : ℕ
  i1 : ℕ
  i2 : ℕ
  base : RGB

/-- The colour computed for a facet in the filled branch (lines 216-219): the
shader is invoked on the facet's three object-space vertices with
`self.facet_colour` as the colour argument. -/
noncomputable def drawn_colour (light : Vec3) (facet_colour : RGB)
    (vertices : List Vec3) (f : ColouredFacet) : RGB :=
  gouraud_shading light (vertices.getD f.i0 ⟨0, 0, 0⟩)
    (vertices.getD f.i1 ⟨0, 0, 0⟩) (vertices.getD f.i2 ⟨0, 0, 0⟩) facet_colour

/-- Specification-side definition, following the claim's words: the drawn
colour computed from the facet's own base colour. -/
noncomputable def claimed_drawn_colour (light : Vec3) (vertices : List Vec3)
    (f : ColouredFacet) : RGB :=
  gouraud_shading light (vertices.getD f.i0 ⟨0, 0, 0⟩)
    (vertices.getD f.i1 ⟨0, 0, 0⟩) (vertices.getD f.i2 ⟨0, 0, 0⟩) f.base

/-! objreader.py: read (lines 42-58) and the scene load path
(renderer.py load_model lines 99-105, main lines 423-426) -/

/-- A whitespace token of a `v `-tagged line, as seen by `float(x)`: either a
numeric literal (with its exact value) or a malformed field on which the
conversion raises. -/
inductive VTok
  | num (q : ℚ)
  | bad

/-- A token of an `f `-tagged line, as seen by `int(x.split("/")[0])`: either
a well-formed 1-based index or a malformed field on which the conversion
raises. -/
inductive FTok
  | idx (n : ℤ)
  | bad

/-- One line of the input file: a vertex definition, a facet definition, or
any other line (ignored by `read`). -/
inductive ObjLine
  | vertexLine (toks : List VTok)
  | facetLine (toks : List FTok)
  | other

/-- objreader.parse_vertex: `[float(x) for x in line.split()[1:]]`, failing at
the first malformed field. -/
def parse_vertex : List VTok → Except Unit (List ℚ)
  | [] => .ok []
  | .num q :: rest => (parse_vertex rest).map (fun l => q :: l)
  | .bad :: _ => .error ()

/-- objreader.parse_facet: `[int(x.split("/")[0]) - 1 for x in ...]`, failing
at the first malformed index. -/
def parse_facet : List FTok → Except Unit (List ℤ)
  | [] => .ok []
  | .idx n :: rest => (parse_facet rest).map (fun l => (n - 1) :: l)
  | .bad :: _ => .error ()

/-- The line scan of objreader.read, accumulating vertices and facets; a
parse failure aborts the whole read (the Python exception propagates). -/
def readAux : List ObjLine → List (List ℚ) → List (List ℤ) →
    Except Unit (List (List ℚ) × List (List ℤ) × List (List ℤ))
  | [], vs, fs => .ok (vs, fs, convert_facets_to_edges fs)
  | .vertexLine toks :: rest, vs, fs =>
      match parse_vertex toks with
      | .ok v => readAux rest (vs ++ [v]) fs
      | .error e => .error e
  | .facetLine toks :: rest, vs, fs =>
      match parse_facet toks with
      | .ok f => readAux rest vs (fs ++ [f])
      | .error e => .error e
  | .other :: rest, vs, fs => readAux rest vs fs

/-- objreader.read on a tokenised file. -/
def read (lines : List ObjLine) :
    Except Unit (List (List ℚ) × List (List ℤ) × List (List ℤ)) :=
  readAux lines [] []

/-- A colour as produced by `random.randrange(256)` triples. -/
abbrev ColourTriple := ℕ × ℕ × ℕ

/-- The mesh fields of the Scene object (vertices, facets, edges); loaded
facets carry the colour appended by colorize_facets, the default cube's
facets carry none. -/
structure MeshState where
  vertices : List (List ℚ)
  facets : List (List ℤ × Option ColourTriple)
  edges : List (List ℤ)
deriving DecidableEq

/-- The default cube mesh of Scene.__init__ (lines 86-97). -/
def defaultMesh : MeshState :=
  ⟨[[-1, -1, 1], [-1, 1, 1], [1, 1, 1], [1, -1, 1],
    [-1, -1, -1], [-1, 1, -1], [1, 1, -1], [1, -1, -1]],
   [([0, 1, 2], none), ([2, 3, 0], none), ([1, 5, 6], none), ([6, 2, 1], none),
    ([5, 4, 7], none), ([7, 6, 5], none), ([4, 0, 3], none), ([3, 7, 4], none),
    ([3, 2, 6], none), ([6, 7, 3], none), ([0, 5, 1], none), ([0, 4, 5], none)],
   [[0, 1], [1, 2], [2, 3], [3, 0], [4, 5], [5, 6], [6, 7], [7, 4],
    [0, 4], [1, 5], [2, 6], [3, 7]]⟩

/-- Scene.load_model: replace the three mesh fields. -/
def load_model (_s : MeshState) (vs : List (List ℚ))
    (fs : List (List ℤ × Option ColourTriple)) (es : List (List ℤ)) : MeshState :=
  ⟨vs, fs, es⟩

/-- colorize_facets: append a colour to every facet; the random colour choice
is modelled by the explicit function `colours` from facet position. -/
def colorize_facets (colours : ℕ → ColourTriple)
    (facets : List (List ℤ)) : List (List ℤ × Option ColourTriple) :=
  facets.enum.map (fun p => (p.2, some (colours p.1)))

/-- The model-loading step of main (lines 423-426): read the file, colorize
the facets and load the model into the scene; if `read` raises, the
exception propagates before any scene mutation, so the scene keeps its
previous mesh. -/
def attempt_load (colours : ℕ → ColourTriple) (s : MeshState)
    (lines : List ObjLine) : MeshState :=
  match read lines with
  | .ok (vs, fs, es) => load_model s vs (colorize_facets colours fs) es
  | .error _ => s

/-! Helper lemmas -/

/-- Unfolding lemma for dedupFirst on a nonempty list. -/
theorem dedupFirst_cons (e : List ℤ) (rest : List (List ℤ)) :
    dedupFirst (e :: rest) = e :: dedupFirst (rest.filter (fun x => decide (x ≠ e))) := by
  rw [dedupFirst]

/-- Folding the per-facet triple of addEdge steps equals folding addEdge over
the flat candidate-edge stream. -/
theorem convert_eq_foldl_stream (facets : List (List ℤ)) (acc : List (List ℤ)) :
    facets.foldl
      (fun edges facet =>
        let edge1 := sorted2 (facet.getD 0 0) (facet.getD 1 0)
        let edge2 := sorted2 (facet.getD 1 0) (facet.getD 2 0)
        let edge3 := sorted2 (facet.getD 0 0) (facet.getD 2 0)
        addEdge (addEdge (addEdge edges edge1) edge2) edge3) acc
    = (edgeStream facets).foldl addEdge acc := by
  induction facets generalizing acc with
  | nil => rfl
  | cons f fs ih => exact ih _

/-- Folding addEdge is appending the first-seen deduplication of the
not-yet-present elements. -/
theorem addEdge_foldl_dedup (l : List (List ℤ)) (acc : List (List ℤ)) :
    l.foldl addEdge acc = acc ++ dedupFirst (l.filter (fun e => decide (e ∉ acc))) := by
  induction l generalizing acc with
  | nil => simp [dedupFirst]
  | cons a l ih =>
    rw [List.foldl_cons]
    by_cases h : a ∈ acc
    · have h1 : addEdge acc a = acc := by simp [addEdge, h]
      rw [h1, ih, List.filter_cons]
      simp [h]
    · have h1 : addEdge acc a = acc ++ [a] := by simp [addEdge, h]
      rw [h1, ih, List.filter_cons]
      have hc : (decide (a ∉ acc)) = true := by simp [h]
      rw [hc, if_pos rfl, dedupFirst_cons]
      have hpred : (fun e => decide (e ∉ acc ++ [a]))
          = fun e => decide (e ≠ a) && decide (e ∉ acc) := by
        funext e
        by_cases he : e = a <;> by_cases hm : e ∈ acc <;> simp [he, hm]
      rw [hpred, ← List.filter_filter]
      simp

/-- Membership in the first-seen deduplication is membership in the list. -/
theorem mem_dedupFirst (x : List ℤ) : ∀ l : List (List ℤ), x ∈ dedupFirst l ↔ x ∈ l := by
  intro l
  induction l using dedupFirst.induct with
  | case1 => simp [dedupFirst]
  | case2 e rest ih =>
    rw [dedupFirst_cons, List.mem_cons, ih, List.mem_filter, List.mem_cons]
    by_cases hx : x = e <;> simp [hx]

/-- The first-seen deduplication has no duplicates. -/
theorem dedupFirst_nodup : ∀ l : List (List ℤ), (dedupFirst l).Nodup := by
  intro l
  induction l using dedupFirst.induct with
  | case1 => simp [dedupFirst]
  | case2 e rest ih =>
    rw [dedupFirst_cons]
    refine List.nodup_cons.mpr ⟨?_, ih⟩
    intro hmem
    have := (mem_dedupFirst e _).mp hmem
    simp [List.mem_filter] at this

/-- First-seen deduplication never lengthens a list. -/
theorem dedupFirst_length_le : ∀ l : List (List ℤ), (dedupFirst l).length ≤ l.length := by
  intro l
  induction l using dedupFirst.induct with
  | case1 => simp [dedupFirst]
  | case2 e rest ih =>
    rw [dedupFirst_cons]
    simpa using Nat.le_trans ih (List.length_filter_le _ _)

/-- The candidate-edge stream has exactly three entries per facet. -/
theorem edgeStream_length (facets : List (List ℤ)) :
    (edgeStream facets).length = 3 * facets.length := by
  induction facets with
  | nil => rfl
  | cons f fs ih =>
    have h : edgeStream (f :: fs) = facetEdges f ++ edgeStream fs := rfl
    rw [h, List.length_append, ih]
    simp [facetEdges]
    omega

/-- convert_facets_to_edges is the first-seen deduplication of the
candidate-edge stream. -/
theorem convert_eq_dedupFirst (facets : List (List ℤ)) :
    convert_facets_to_edges facets = dedupFirst (edgeStream facets) := by
  rw [convert_facets_to_edges, convert_eq_foldl_stream, addEdge_foldl_dedup]
  have hpred : (fun e : List ℤ => decide (e ∉ ([] : List (List ℤ)))) = fun _ => true := by
    funext e
    simp
  simp [hpred]

/-- A sublist whose elements all satisfy the filter predicate, of the same
length as the filtered list, is the filtered list. -/
theorem sublist_filter_eq {α : Type} (p : α → Bool) {l₁ l₂ : List α}
    (hsub : List.Sublist l₁ l₂) (hall : ∀ x ∈ l₁, p x)
    (hlen : l₁.length = (l₂.filter p).length) :
    l₁ = l₂.filter p := by
  have h1 : l₁.filter p = l₁ := List.filter_eq_self.mpr hall
  have h2 : List.Sublist (l₁.filter p) (l₂.filter p) := hsub.filter p
  rw [h1] at h2
  exact h2.eq_of_length hlen

/-- handle_mouse_event keeps a non-positive camera depth non-positive. -/
theorem handle_mouse_event_nonpos (b : ℕ) (z : ℤ) (h : z ≤ 0) :
    handle_mouse_event b z ≤ 0 := by
  simp only [handle_mouse_event]
  split_ifs <;> omega

/-- Folding handle_mouse_event from a non-positive camera depth stays
non-positive. -/
theorem foldl_mouse_nonpos (evs : List ℕ) (z : ℤ) (h : z ≤ 0) :
    List.foldl (fun z b => handle_mouse_event b z) z evs ≤ 0 := by
  induction evs generalizing z with
  | nil => simpa
  | cons b bs ih => exact ih _ (handle_mouse_event_nonpos b z h)

/-- No event changes the camera X or Y position. -/
theorem handle_event_cam_xy (s : SceneState) (e : Ev) :
    (handle_event s e).cam_x = s.cam_x ∧ (handle_event s e).cam_y = s.cam_y := by
  cases e <;> simp only [handle_event] <;> try exact ⟨trivial, trivial⟩
  all_goals split_ifs <;> simp

/-- Folding events preserves the camera X and Y position. -/
theorem foldl_handle_event_cam (evs : List Ev) (s : SceneState) :
    (List.foldl handle_event s evs).cam_x = s.cam_x ∧
      (List.foldl handle_event s evs).cam_y = s.cam_y := by
  induction evs generalizing s with
  | nil => exact ⟨rfl, rfl⟩
  | cons e es ih =>
    have h1 := handle_event_cam_xy s e
    have h2 := ih (handle_event s e)
    exact ⟨h2.1.trans h1.1, h2.2.trans h1.2⟩

/-- parse_vertex fails exactly by raising on a malformed field. -/
theorem parse_vertex_error (toks : List VTok) (h : VTok.bad ∈ toks) :
    parse_vertex toks = .error () := by
  induction toks with
  | nil => cases h
  | cons t ts ih =>
    cases t with
    | num q =>
      have hts : VTok.bad ∈ ts := by
        rcases List.mem_cons.mp h with h' | h'
        · cases h'
        · exact h'
      simp [parse_vertex, ih hts, Except.map]
    | bad => rfl

/-- parse_facet fails exactly by raising on a malformed index. -/
theorem parse_facet_error (toks : List FTok) (h : FTok.bad ∈ toks) :
    parse_facet toks = .error () := by
  induction toks with
  | nil => cases h
  | cons t ts ih =>
    cases t with
    | idx n =>
      have hts : FTok.bad ∈ ts := by
        rcases List.mem_cons.mp h with h' | h'
        · cases h'
        · exact h'
      simp [parse_facet, ih hts, Except.map]
    | bad => rfl

/-- A malformed vertex line anywhere in the file makes the whole read fail. -/
theorem readAux_vertex_bad (pre : List ObjLine) (toks : List VTok) (post : List ObjLine)
    (h : VTok.bad ∈ toks) :
    ∀ vs fs, readAux (pre ++ ObjLine.vertexLine toks :: post) vs fs = .error () := by
  induction pre with
  | nil =>
    intro vs fs
    simp [readAux, parse_vertex_error toks h]
  | cons l ls ih =>
    intro vs fs
    cases l with
    | vertexLine tk =>
      simp only [List.cons_append, readAux]
      cases hpv : parse_vertex tk with
      | ok v => exact ih _ _
      | error e => cases e; rfl
    | facetLine tk =>
      simp only [List.cons_append, readAux]
      cases hpf : parse_facet tk with
      | ok f => exact ih _ _
      | error e => cases e; rfl
    | other =>
      simp only [List.cons_append, readAux]
      exact ih _ _

/-- A malformed facet line anywhere in the file makes the whole read fail. -/
theorem readAux_facet_bad (pre : List ObjLine) (toks : List FTok) (post : List ObjLine)
    (h : FTok.bad ∈ toks) :
    ∀ vs fs, readAux (pre ++ ObjLine.facetLine toks :: post) vs fs = .error () := by
  induction pre with
  | nil =>
    intro vs fs
    simp [readAux, parse_facet_error toks h]
  | cons l ls ih =>
    intro vs fs
    cases l with
    | vertexLine tk =>
      simp only [List.cons_append, readAux]
      cases hpv : parse_vertex tk with
      | ok v => exact ih _ _
      | error e => cases e; rfl
    | facetLine tk =>
      simp only [List.cons_append, readAux]
      cases hpf : parse_facet tk with
      | ok f => exact ih _ _
      | error e => cases e; rfl
    | other =>
      simp only [List.cons_append, readAux]
      exact ih _ _

/-- All frames of the examined scenario take exactly the target frame time,
so the slept time is zero and the cycle time is exactly 1/60 s. -/
theorem cycleTime_sixtieth : cycleTime (1/60) = 1/60 := by
  rw [cycleTime, TARGET_FRAME_TIME]
  norm_num

/-- render_loop below the refresh boundary: no display update, the window
counter and frame counter advance. -/
theorem render_loop_below (s : FrameState) (t : ℚ)
    (h : s.frame_rate_time + cycleTime t < FRAME_RATE_REFRESH) :
    render_loop s t = ⟨s.fps, s.frame_rate_time + cycleTime t,
      s.frame_rate_count + 1, s.total_time + cycleTime t⟩ := by
  rw [render_loop]
  simp only [if_neg (not_le.mpr h)]

/-- render_loop at or past the refresh boundary: the display is set to
count / refresh and both counters are reset, the frame counter after the
check getting its post-check increment. -/
theorem render_loop_boundary (s : FrameState) (t : ℚ)
    (h : FRAME_RATE_REFRESH ≤ s.frame_rate_time + cycleTime t) :
    render_loop s t = ⟨(s.frame_rate_count : ℤ) / 1, 0, 0 + 1,
      s.total_time + cycleTime t⟩ := by
  rw [render_loop]
  simp only [if_pos h]

/-- runFrames distributes over list append. -/
theorem runFrames_append (s : FrameState) (l1 l2 : List ℚ) :
    runFrames s (l1 ++ l2) = runFrames (runFrames s l1) l2 := by
  simp [runFrames, List.foldl_append]

/-- fpsUpdateCount distributes over list append. -/
theorem fpsUpdateCount_append (s : FrameState) (l1 l2 : List ℚ) :
    fpsUpdateCount s (l1 ++ l2) =
      fpsUpdateCount s l1 + fpsUpdateCount (runFrames s l1) l2 := by
  induction l1 generalizing s with
  | nil => simp [fpsUpdateCount, runFrames]
  | cons t ts ih =>
    have h : runFrames s (t :: ts) = runFrames (render_loop s t) ts := by
      simp [runFrames]
    simp only [List.cons_append, List.append_eq, fpsUpdateCount, ih, h, Nat.add_assoc]

/-- Closed form of a partial window: while the accumulated window time stays
below one second, every frame just advances the counters. -/
theorem runFrames_partial (s : FrameState) (n k : ℕ)
    (hf : s.frame_rate_time = (k : ℚ) / 60) (hn : k + n ≤ 59) :
    runFrames s (List.replicate n (1/60)) =
      ⟨s.fps, ((k + n : ℕ) : ℚ) / 60, s.frame_rate_count + n,
        s.total_time + (n : ℚ) / 60⟩ := by
  induction n generalizing s k with
  | zero =>
    simp only [List.replicate, runFrames, List.foldl_nil, Nat.add_zero]
    rw [← hf]
    push_cast
    simp
  | succ m ih =>
    rw [List.replicate_succ]
    have hstep : render_loop s (1/60) =
        ⟨s.fps, s.frame_rate_time + cycleTime (1/60), s.frame_rate_count + 1,
          s.total_time + cycleTime (1/60)⟩ := by
      refine render_loop_below s (1/60) ?_
      rw [hf, cycleTime_sixtieth, FRAME_RATE_REFRESH, div_add_div_same,
        div_lt_one (by norm_num)]
      exact_mod_cast (by omega : k + 1 < 60)
    have h1 : runFrames s (1/60 :: List.replicate m (1/60)) =
        runFrames (render_loop s (1/60)) (List.replicate m (1/60)) := by
      simp [runFrames]
    rw [h1, hstep]
    have hf' : (⟨s.fps, s.frame_rate_time + cycleTime (1/60), s.frame_rate_count + 1,
        s.total_time + cycleTime (1/60)⟩ : FrameState).frame_rate_time
        = ((k + 1 : ℕ) : ℚ) / 60 := by
      simp only [hf, cycleTime_sixtieth]
      push_cast
      ring
    rw [ih _ (k + 1) hf' (by omega)]
    simp only [FrameState.mk.injEq, cycleTime_sixtieth]
    refine ⟨trivial, by push_cast; ring, by omega, by push_cast; ring⟩

/-- Closed form of a partial window for the update counter: below the
boundary the display is never refreshed. -/
theorem fpsUpdateCount_partial (s : FrameState) (n k : ℕ)
    (hf : s.frame_rate_time = (k : ℚ) / 60) (hn : k + n ≤ 59) :
    fpsUpdateCount s (List.replicate n (1/60)) = 0 := by
  induction n generalizing s k with
  | zero => rfl
  | succ m ih =>
    rw [List.replicate_succ, fpsUpdateCount]
    have hcond : ¬ (FRAME_RATE_REFRESH ≤ s.frame_rate_time + cycleTime (1/60)) := by
      rw [hf, cycleTime_sixtieth, FRAME_RATE_REFRESH, div_add_div_same, not_le,
        div_lt_one (by norm_num)]
      exact_mod_cast (by omega : k + 1 < 60)
    rw [if_neg hcond]
    have hstep := render_loop_below s (1/60) (not_le.mp hcond)
    rw [hstep]
    have hf' : (⟨s.fps, s.frame_rate_time + cycleTime (1/60), s.frame_rate_count + 1,
        s.total_time + cycleTime (1/60)⟩ : FrameState).frame_rate_time
        = ((k + 1 : ℕ) : ℚ) / 60 := by
      simp only [hf, cycleTime_sixtieth]
      push_cast
      ring
    rw [ih _ (k + 1) hf' (by omega)]

/-- The first 59 frames of the run: no refresh yet, 59 frames counted. -/
theorem runFrames_59 :
    runFrames initFrameState (List.replicate 59 (1/60)) = ⟨60, 59/60, 59, 59/60⟩ := by
  have h := runFrames_partial initFrameState 59 0 (by norm_num [initFrameState]) (by omega)
  rw [h]
  norm_num [initFrameState]

/-- Frame 60 crosses the window boundary: the display becomes 59. -/
theorem runFrames_60 :
    runFrames initFrameState (List.replicate 60 (1/60)) = ⟨59, 0, 1, 1⟩ := by
  rw [show (60 : ℕ) = 59 + 1 from rfl, List.replicate_succ', runFrames_append,
    runFrames_59]
  have h := render_loop_boundary ⟨60, 59/60, 59, 59/60⟩ (1/60)
    (by norm_num [cycleTime_sixtieth, FRAME_RATE_REFRESH])
  have h1 : runFrames (⟨60, 59/60, 59, 59/60⟩ : FrameState) [1/60]
      = render_loop ⟨60, 59/60, 59, 59/60⟩ (1/60) := by
    simp [runFrames]
  rw [h1, h]
  norm_num [cycleTime_sixtieth, FrameState.mk.injEq]

/-- Frame 120 closes the second window: the display becomes 60. -/
theorem runFrames_120 :
    runFrames initFrameState (List.replicate 120 (1/60)) = ⟨60, 0, 1, 2⟩ := by
  rw [show (120 : ℕ) = 60 + 60 from rfl, List.replicate_add, runFrames_append,
    runFrames_60]
  rw [show (60 : ℕ) = 59 + 1 from rfl, List.replicate_succ', runFrames_append]
  have h := runFrames_partial ⟨59, 0, 1, 1⟩ 59 0 (by norm_num) (by omega)
  rw [h]
  norm_num
  have h2 := render_loop_boundary ⟨59, 59/60, 60, 119/60⟩ (1/60)
    (by norm_num [cycleTime_sixtieth, FRAME_RATE_REFRESH])
  have h1 : runFrames (⟨59, 59/60, 60, 119/60⟩ : FrameState) [1/60]
      = render_loop ⟨59, 59/60, 60, 119/60⟩ (1/60) := by
    simp [runFrames]
  rw [h1, h2]
  norm_num [cycleTime_sixtieth, FrameState.mk.injEq]

/-- The display is refreshed exactly once during the first 60 frames. -/
theorem fpsUpdateCount_60 :
    fpsUpdateCount initFrameState (List.replicate 60 (1/60)) = 1 := by
  rw [show (60 : ℕ) = 59 + 1 from rfl, List.replicate_succ', fpsUpdateCount_append,
    fpsUpdateCount_partial initFrameState 59 0 (by norm_num [initFrameState]) (by omega),
    runFrames_59]
  rw [fpsUpdateCount]
  rw [if_pos (by norm_num [cycleTime_sixtieth, FRAME_RATE_REFRESH] :
    FRAME_RATE_REFRESH ≤ (⟨60, 59/60, 59, 59/60⟩ : FrameState).frame_rate_time
      + cycleTime (1/60))]
  rfl

/-- The display is refreshed exactly twice during the first 120 frames. -/
theorem fpsUpdateCount_120 :
    fpsUpdateCount initFrameState (List.replicate 120 (1/60)) = 2 := by
  rw [show (120 : ℕ) = 60 + 60 from rfl, List.replicate_add, fpsUpdateCount_append,
    fpsUpdateCount_60, runFrames_60]
  rw [show (60 : ℕ) = 59 + 1 from rfl, List.replicate_succ', fpsUpdateCount_append,
    fpsUpdateCount_partial ⟨59, 0, 1, 1⟩ 59 0 (by norm_num) (by omega)]
  have h := runFrames_partial (⟨59, 0, 1, 1⟩ : FrameState) 59 0 (by norm_num) (by omega)
  rw [h]
  norm_num
  rw [fpsUpdateCount]
  rw [if_pos (by norm_num [cycleTime_sixtieth, FRAME_RATE_REFRESH] :
    FRAME_RATE_REFRESH ≤ (⟨59, 59/60, 60, 1 + 59/60⟩ : FrameState).frame_rate_time
      + cycleTime (1/60))]
  rfl

/-! Claim C5 -/

/-- C5 counterexample: on the built-in 12-facet cube mesh,
convert_facets_to_edges does not yield 12 unique edges (it yields 18: the 12
cube edges plus the 6 face diagonals introduced by the triangulation). -/
theorem claim_C5_counterexample :
    ¬ ((convert_facets_to_edges cubeFacets).length = 12) := by decide

/-- C5 (amended): for every facet list, convert_facets_to_edges is the
first-seen deduplication of the candidate-edge stream (so it has no duplicate
canonicalised pair, edges appear in first-seen order, and its length is at
most 3 times the facet count); on the 12-facet cube mesh it yields exactly 18
unique edges. -/
theorem claim_C5_theorem :
    (∀ facets : List (List ℤ),
      convert_facets_to_edges facets = dedupFirst (edgeStream facets) ∧
      (convert_facets_to_edges facets).Nodup ∧
      (∀ e, e ∈ convert_facets_to_edges facets ↔ e ∈ edgeStream facets) ∧
      (convert_facets_to_edges facets).length ≤ 3 * facets.length) ∧
    (convert_facets_to_edges cubeFacets).length = 18 := by
  refine ⟨fun facets => ⟨convert_eq_dedupFirst facets, ?_, ?_, ?_⟩, by decide⟩
  · rw [convert_eq_dedupFirst]
    exact dedupFirst_nodup _
  · intro e
    rw [convert_eq_dedupFirst]
    exact mem_dedupFirst e _
  · rw [convert_eq_dedupFirst, ← edgeStream_length facets]
    exact dedupFirst_length_le _

/-! Claim C6 -/

/-- C6: a failed mesh load (malformed vertex or facet field anywhere in the
file) leaves the scene's mesh state exactly as it was: the read aborts, and
the previously active mesh (for instance the default cube) stays in effect
with no partial update. -/
theorem claim_C6_theorem :
    (∀ (colours : ℕ → ColourTriple) (s : MeshState) (lines : List ObjLine),
        read lines = .error () → attempt_load colours s lines = s) ∧
    (∀ (colours : ℕ → ColourTriple) (s : MeshState) (pre : List ObjLine)
        (toks : List VTok) (post : List ObjLine), VTok.bad ∈ toks →
        attempt_load colours s (pre ++ ObjLine.vertexLine toks :: post) = s) ∧
    (∀ (colours : ℕ → ColourTriple) (s : MeshState) (pre : List ObjLine)
        (toks : List FTok) (post : List ObjLine), FTok.bad ∈ toks →
        attempt_load colours s (pre ++ ObjLine.facetLine toks :: post) = s) := by
  refine ⟨fun colours s lines h => ?_, fun colours s pre toks post h => ?_,
    fun colours s pre toks post h => ?_⟩
  · rw [attempt_load, h]
  · rw [attempt_load, read, readAux_vertex_bad pre toks post h]
  · rw [attempt_load, read, readAux_facet_bad pre toks post h]

/-- C6 witness: a vertex line with a malformed second field makes the read
fail, and attempting the load leaves the default cube mesh untouched. -/
theorem claim_C6_witness :
    read [ObjLine.vertexLine [VTok.num 1, VTok.bad]] = .error () ∧
    attempt_load (fun _ => (0, 0, 0)) defaultMesh
      [ObjLine.vertexLine [VTok.num 1, VTok.bad]] = defaultMesh :=
  ⟨rfl, claim_C6_theorem.1 _ _ _ rfl⟩

/-! Claim C7 -/

/-- C7 counterexample: starting from the program's initial counters, 60
frames each taking exactly 1/60 s fill one 1-second window, but the
displayed frame rate is updated to 59, not 60, because the frame counter is
incremented only after the refresh check. -/
theorem claim_C7_counterexample :
    ¬ ((runFrames initFrameState (List.replicate 60 (1/60))).fps = 60) := by
  rw [runFrames_60]
  decide

/-- C7 (amended): when the rolling window counter reaches or exceeds the
1-second refresh period, the displayed frame rate is set to
frameCount / refreshPeriod and both counters are reset (the frame counter to
0, then incremented after the check); with 60 frames of exactly 1/60 s from
the initial state the display updates exactly once, at the window boundary
(not before), to 59 — the window's closing frame is not yet counted; the
second window then displays 60. -/
theorem claim_C7_theorem :
    (∀ (s : FrameState) (t : ℚ),
        FRAME_RATE_REFRESH ≤ s.frame_rate_time + cycleTime t →
        render_loop s t =
          ⟨(s.frame_rate_count : ℤ) / 1, 0, 0 + 1, s.total_time + cycleTime t⟩) ∧
    fpsUpdateCount initFrameState (List.replicate 60 (1/60)) = 1 ∧
    (runFrames initFrameState (List.replicate 59 (1/60))).fps = 60 ∧
    (runFrames initFrameState (List.replicate 60 (1/60))).fps = 59 ∧
    (runFrames initFrameState (List.replicate 120 (1/60))).fps = 60 ∧
    fpsUpdateCount initFrameState (List.replicate 120 (1/60)) = 2 := by
  refine ⟨render_loop_boundary, fpsUpdateCount_60, ?_, ?_, ?_, fpsUpdateCount_120⟩
  · rw [runFrames_59]
  · rw [runFrames_60]
  · rw [runFrames_120]

/-- C7 witness: a concrete boundary step — window counter at 1 s, 7 frames
counted — updates the display to 7 and resets both counters. -/
theorem claim_C7_witness :
    FRAME_RATE_REFRESH ≤ (1 : ℚ) + cycleTime (1/60) ∧
    render_loop ⟨60, 1, 7, 0⟩ (1/60) = ⟨7, 0, 1, 1/60⟩ := by
  have hc : FRAME_RATE_REFRESH ≤
      (⟨60, 1, 7, 0⟩ : FrameState).frame_rate_time + cycleTime (1/60) := by
    norm_num [cycleTime_sixtieth, FRAME_RATE_REFRESH]
  refine ⟨hc, ?_⟩
  have h := claim_C7_theorem.1 ⟨60, 1, 7, 0⟩ (1/60) hc
  rw [h]
  norm_num [cycleTime_sixtieth, FrameState.mk.injEq]

/-! Claim C8 -/

/-- C8 counterexample: ten scroll-up notches from the initial camera depth
-10 drive the camera Z position to exactly 0, which is non-negative — the
clamp does not keep Z strictly negative. -/
theorem claim_C8_counterexample :
    List.foldl (fun z b => handle_mouse_event b z) (-10) (List.replicate 10 4) = 0 := by
  decide

/-- C8 (amended): a scroll-up notch (button 4) adds 1 to the camera Z
position only while it is negative and is a no-op once Z is 0; a scroll-down
notch (button 5) always subtracts 1; consequently, from the initial position
Z = -10 the camera Z position never becomes positive (it stays ≤ 0, and can
reach exactly 0). -/
theorem claim_C8_theorem :
    (∀ z : ℤ, z < 0 → handle_mouse_event 4 z = z + 1) ∧
    (∀ z : ℤ, 0 ≤ z → handle_mouse_event 4 z = z) ∧
    (∀ z : ℤ, handle_mouse_event 5 z = z - 1) ∧
    (∀ evs : List ℕ, List.foldl (fun z b => handle_mouse_event b z) (-10) evs ≤ 0) := by
  refine ⟨fun z h => ?_, fun z h => ?_, fun z => ?_, fun evs => ?_⟩
  · simp only [handle_mouse_event]
    split_ifs <;> omega
  · simp only [handle_mouse_event]
    split_ifs <;> omega
  · simp only [handle_mouse_event]
    split_ifs <;> omega
  · exact foldl_mouse_nonpos evs (-10) (by omega)

/-- C8 witness: concrete notches — scroll-up at -5 gives -4, scroll-up at 3
gives 3, scroll-down at -5 gives -6, and a concrete event run stays ≤ 0. -/
theorem claim_C8_witness :
    handle_mouse_event 4 (-5) = -5 + 1 ∧
    handle_mouse_event 4 3 = 3 ∧
    handle_mouse_event 5 (-5) = -5 - 1 ∧
    List.foldl (fun z b => handle_mouse_event b z) (-10) [4, 4, 5] ≤ 0 :=
  ⟨claim_C8_theorem.1 (-5) (by decide), claim_C8_theorem.2.1 3 (by decide),
   claim_C8_theorem.2.2.1 (-5), claim_C8_theorem.2.2.2 [4, 4, 5]⟩

/-! Claim C10 -/

/-- C10: no operation of the program mutates the camera X or Y position —
every event (mouse buttons including the wheel, the handled keys including
the reset key, mouse drags, and rendered frames) preserves them, so from the
initial state they remain 0 for the whole run. -/
theorem claim_C10_theorem :
    (∀ (s : SceneState) (e : Ev),
        (handle_event s e).cam_x = s.cam_x ∧ (handle_event s e).cam_y = s.cam_y) ∧
    (∀ evs : List Ev,
        (List.foldl handle_event initSceneState evs).cam_x = 0 ∧
        (List.foldl handle_event initSceneState evs).cam_y = 0) :=
  ⟨handle_event_cam_xy,
   fun evs => (foldl_handle_event_cam evs initSceneState).imp
     (fun h => h.trans rfl) (fun h => h.trans rfl)⟩

/-! Claim C3 -/

/-- C3: the depth sorter returns a permutation of the facet list, ordered by
descending average depth of each facet's 3 referenced vertices, and the sort
is stable — for every depth value, the facets having exactly that average
depth appear in the output in their original relative order. -/
theorem claim_C3_theorem (depths : List ℚ) (facets : List (List ℕ)) :
    List.Perm (painters_algorithm depths facets) facets ∧
    (painters_algorithm depths facets).Pairwise
      (fun f g => avg_depth depths g ≤ avg_depth depths f) ∧
    (∀ q : ℚ, (painters_algorithm depths facets).filter
        (fun f => decide (avg_depth depths f = q))
      = facets.filter (fun f => decide (avg_depth depths f = q))) := by
  have htrans : ∀ a b c : List ℕ,
      (decide (avg_depth depths b ≤ avg_depth depths a)) = true →
      (decide (avg_depth depths c ≤ avg_depth depths b)) = true →
      (decide (avg_depth depths c ≤ avg_depth depths a)) = true := by
    intro a b c hab hbc
    rw [decide_eq_true_eq] at hab hbc ⊢
    exact le_trans hbc hab
  have htotal : ∀ a b : List ℕ,
      ((decide (avg_depth depths b ≤ avg_depth depths a)) ||
        (decide (avg_depth depths a ≤ avg_depth depths b))) = true := by
    intro a b
    rw [Bool.or_eq_true, decide_eq_true_eq, decide_eq_true_eq]
    exact le_total _ _
  refine ⟨List.mergeSort_perm facets _, ?_, ?_⟩
  · have h := List.sorted_mergeSort htrans htotal facets
    exact h.imp (fun hfg => of_decide_eq_true hfg)
  · intro q
    have hall : ∀ x ∈ facets.filter (fun f => decide (avg_depth depths f = q)),
        (fun f => decide (avg_depth depths f = q)) x :=
      fun x hx => (List.mem_filter.mp hx).2
    have hpair : (facets.filter (fun f => decide (avg_depth depths f = q))).Pairwise
        (fun f g => (decide (avg_depth depths g ≤ avg_depth depths f)) = true) := by
      refine List.pairwise_of_forall_mem_list ?_
      intro f hf g hg
      have hfq : avg_depth depths f = q := by
        have := (List.mem_filter.mp hf).2
        exact of_decide_eq_true this
      have hgq : avg_depth depths g = q := by
        have := (List.mem_filter.mp hg).2
        exact of_decide_eq_true this
      rw [decide_eq_true_eq, hfq, hgq]
    have hsub : List.Sublist
        (facets.filter (fun f => decide (avg_depth depths f = q))) facets :=
      List.filter_sublist facets
    have hstab := List.sublist_mergeSort htrans htotal hpair hsub
    have hperm : List.Perm
        ((painters_algorithm depths facets).filter
          (fun f => decide (avg_depth depths f = q)))
        (facets.filter (fun f => decide (avg_depth depths f = q))) :=
      (List.mergeSort_perm facets _).filter _
    exact (sublist_filter_eq _ hstab hall hperm.length_eq.symm).symm

/-! Claim C1 -/

/-- At zero rotation angles the code's rotation pipeline negates the x and z
coordinates (it is not the identity). -/
theorem rotate_vertex_zero (v : Vec3) : rotate_vertex ⟨0, 0, 0⟩ v = ⟨-v.x, v.y, -v.z⟩ := by
  simp [rotate_vertex, rotation_step1, rotation_step2, rotation_step3]

/-- C1 counterexample: for vertex (0,0,-10), zero rotation and camera
(0,0,-10), the depth after the translation step is 20 — not 0 — so the
epsilon 0.00001 is never substituted (the returned depth is 20). -/
theorem claim_C1_counterexample :
    (translated initCamera ⟨0, 0, -10⟩).z = 20 ∧
    ¬ ((translated initCamera ⟨0, 0, -10⟩).z = 0) ∧
    ¬ ((transform initCamera (centre_x : ℝ) (centre_y : ℝ) ⟨0, 0, -10⟩).2 = 0.00001) := by
  have ht : translated initCamera ⟨0, 0, -10⟩ = ⟨0, 0, 20⟩ := by
    rw [translated, initCamera, rotate_vertex_zero]
    norm_num [Vec3.mk.injEq]
  refine ⟨by rw [ht], by rw [ht]; norm_num, ?_⟩
  rw [transform, ht]
  have hz : depthGuard (Vec3.mk 0 0 20).z = 20 := by
    rw [depthGuard]
    norm_num
  rw [hz]
  norm_num

/-- C1 (amended): for vertex (0,0,-10), zero rotation and camera (0,0,-10),
the rotation negates z, so the depth after the translation step is exactly 20
(nonzero — the epsilon guard does not fire and the returned depth is 20),
while the returned screen coordinates equal the screen centre exactly. -/
theorem claim_C1_theorem :
    translated initCamera ⟨0, 0, -10⟩ = ⟨0, 0, 20⟩ ∧
    transform initCamera (centre_x : ℝ) (centre_y : ℝ) ⟨0, 0, -10⟩
      = (⟨centre_x, centre_y⟩, 20) := by
  have ht : translated initCamera ⟨0, 0, -10⟩ = ⟨0, 0, 20⟩ := by
    rw [translated, initCamera, rotate_vertex_zero]
    norm_num [Vec3.mk.injEq]
  refine ⟨ht, ?_⟩
  rw [transform, ht]
  have hz : depthGuard (Vec3.mk 0 0 20).z = 20 := by
    rw [depthGuard]
    norm_num
  rw [hz]
  have hx : initCamera.distortion * (Vec3.mk 0 0 20).x / 20 + (centre_x : ℝ)
      = ((centre_x : ℤ) : ℝ) := by
    rw [initCamera]
    norm_num
  have hy : initCamera.distortion * (Vec3.mk 0 0 20).y / 20 + (centre_y : ℝ)
      = ((centre_y : ℤ) : ℝ) := by
    rw [initCamera]
    norm_num
  rw [hx, hy]
  have hfloor : ∀ n : ℤ, pyInt ((n : ℝ)) = n := by
    intro n
    rw [pyInt]
    split_ifs with h
    · rw [← Int.cast_neg, Int.floor_intCast]
      omega
    · exact Int.floor_intCast n
  rw [Prod.mk.injEq, ScreenPoint.mk.injEq]
  exact ⟨⟨hfloor centre_x, hfloor centre_y⟩, rfl⟩

/-! Claim C2 -/

/-- C2 counterexample: the first rotation step (driven by rotation angle 0,
where sin = 0 and cos = 1) maps (1,2,3) to (-1,2,-3): it modifies x and z
and is not the claimed X-axis rotation, which would leave the vertex at
(1,2,3). -/
theorem claim_C2_counterexample :
    rotation_step1 0 ⟨1, 2, 3⟩ = ⟨-1, 2, -3⟩ ∧
    ¬ (rotation_step1 0 ⟨1, 2, 3⟩ = claimed_rotation_x 0 ⟨1, 2, 3⟩) := by
  have h1 : rotation_step1 0 ⟨1, 2, 3⟩ = ⟨-1, 2, -3⟩ := by
    rw [rotation_step1]
    norm_num [Vec3.mk.injEq]
  have h2 : claimed_rotation_x 0 ⟨1, 2, 3⟩ = ⟨1, 2, 3⟩ := by
    rw [claimed_rotation_x]
    norm_num [Vec3.mk.injEq]
  refine ⟨h1, ?_⟩
  rw [h1, h2]
  intro h
  have := congrArg Vec3.x h
  norm_num at this

/-- C2 (amended): the transform applies three sequential steps in fixed
order, driven by the rotation angles r0, r1, r2, each reusing the updated
coordinates of the previous step; but the first step leaves y (not x) fixed
and maps (x,z) to (-x cos r0 + z sin r0, -x sin r0 - z cos r0) — the
negation of a standard rotation in the (x,z) plane; the second leaves x
fixed and maps (y,z) to (y cos r1 + z sin r1, -y sin r1 + z cos r1) — a
standard rotation by -r1 in the (y,z) plane; only the third is the claimed
standard rotation, leaving z fixed and mapping (x,y) to
(x cos r2 - y sin r2, x sin r2 + y cos r2). -/
theorem claim_C2_theorem (r0 r1 r2 x y z : ℝ) :
    rotate_vertex ⟨r0, r1, r2⟩ ⟨x, y, z⟩ =
      rotation_step3 r2 (rotation_step2 r1 (rotation_step1 r0 ⟨x, y, z⟩)) ∧
    rotate_vertex ⟨r0, r1, r2⟩ ⟨x, y, z⟩ =
      ⟨(-x * Real.cos r0 + z * Real.sin r0) * Real.cos r2 -
        (y * Real.cos r1 + (-x * Real.sin r0 - z * Real.cos r0) * Real.sin r1) *
          Real.sin r2,
       (y * Real.cos r1 + (-x * Real.sin r0 - z * Real.cos r0) * Real.sin r1) *
          Real.cos r2 + (-x * Real.cos r0 + z * Real.sin r0) * Real.sin r2,
       -y * Real.sin r1 + (-x * Real.sin r0 - z * Real.cos r0) * Real.cos r1⟩ ∧
    rotation_step1 r0 ⟨x, y, z⟩ =
      ⟨-x * Real.cos r0 + z * Real.sin r0, y, -x * Real.sin r0 - z * Real.cos r0⟩ ∧
    rotation_step2 r1 ⟨x, y, z⟩ =
      ⟨x, y * Real.cos r1 + z * Real.sin r1, -y * Real.sin r1 + z * Real.cos r1⟩ ∧
    rotation_step3 r2 ⟨x, y, z⟩ =
      ⟨x * Real.cos r2 - y * Real.sin r2, x * Real.sin r2 + y * Real.cos r2, z⟩ := by
  refine ⟨rfl, rfl, rfl, rfl, ?_⟩
  rw [rotation_step3]
  simp [Vec3.mk.injEq]
  ring

/-! Claim C4 -/

/-- The code's domain guard is exactly the clamp of the dot product into
[-1, 1]. -/
theorem clampAngle_eq_clamp (t : ℝ) : clampAngle t = max (-1) (min 1 t) := by
  simp only [clampAngle, max_def, min_def]
  split_ifs <;> linarith

/-- C4: the shading intensity is arccos of the clamped dot product divided by
pi and lies in [0, 1]; a dot product of exactly 1 yields the colour (0,0,0)
whatever the base colour, and a dot product of exactly 0 yields
floor(channel * 0.5) per channel. -/
theorem claim_C4_theorem (light a b c : Vec3) (colour : RGB)
    (hab : a ≠ b) (hac : a ≠ c) (hbc : b ≠ c) :
    facet_intensity light a b c
        = Real.arccos (max (-1) (min 1 (facet_dot light a b c))) / Real.pi ∧
    0 ≤ facet_intensity light a b c ∧ facet_intensity light a b c ≤ 1 ∧
    (facet_dot light a b c = 1 → gouraud_shading light a b c colour = ⟨0, 0, 0⟩) ∧
    (facet_dot light a b c = 0 →
      gouraud_shading light a b c colour =
        ⟨⌊(colour.r : ℝ) * 0.5⌋, ⌊(colour.g : ℝ) * 0.5⌋, ⌊(colour.b : ℝ) * 0.5⌋⟩) := by
  refine ⟨by rw [facet_intensity, clampAngle_eq_clamp], ?_, ?_, ?_, ?_⟩
  · exact div_nonneg (Real.arccos_nonneg _) Real.pi_pos.le
  · rw [facet_intensity, div_le_one Real.pi_pos]
    exact Real.arccos_le_pi _
  · intro h
    have hi : facet_intensity light a b c = 0 := by
      rw [facet_intensity, h, clampAngle_eq_clamp]
      norm_num [Real.arccos_one]
    rw [gouraud_shading, hi]
    simp [RGB.mk.injEq]
  · intro h
    have hi : facet_intensity light a b c = 1 / 2 := by
      rw [facet_intensity, h, clampAngle_eq_clamp]
      norm_num [Real.arccos_zero]
      field_simp
      ring
    rw [gouraud_shading, hi]
    norm_num [RGB.mk.injEq]

/-- C4 witness: the facet with vertices (0,0,0), (1,0,0), (0,1,0) has normal
(0,0,1); with light (0,0,1) the dot product is exactly 1 and the shaded
colour of base (10,20,30) is (0,0,0). -/
theorem claim_C4_witness :
    (⟨0, 0, 0⟩ : Vec3) ≠ ⟨1, 0, 0⟩ ∧ (⟨0, 0, 0⟩ : Vec3) ≠ ⟨0, 1, 0⟩ ∧
    (⟨1, 0, 0⟩ : Vec3) ≠ ⟨0, 1, 0⟩ ∧
    facet_dot ⟨0, 0, 1⟩ ⟨0, 0, 0⟩ ⟨1, 0, 0⟩ ⟨0, 1, 0⟩ = 1 ∧
    gouraud_shading ⟨0, 0, 1⟩ ⟨0, 0, 0⟩ ⟨1, 0, 0⟩ ⟨0, 1, 0⟩ ⟨10, 20, 30⟩ = ⟨0, 0, 0⟩ := by
  have hab : (⟨0, 0, 0⟩ : Vec3) ≠ ⟨1, 0, 0⟩ := by
    intro h
    have := congrArg Vec3.x h
    norm_num at this
  have hac : (⟨0, 0, 0⟩ : Vec3) ≠ ⟨0, 1, 0⟩ := by
    intro h
    have := congrArg Vec3.y h
    norm_num at this
  have hbc : (⟨1, 0, 0⟩ : Vec3) ≠ ⟨0, 1, 0⟩ := by
    intro h
    have := congrArg Vec3.x h
    norm_num at this
  have hdot : facet_dot ⟨0, 0, 1⟩ ⟨0, 0, 0⟩ ⟨1, 0, 0⟩ ⟨0, 1, 0⟩ = 1 := by
    rw [facet_dot, facet_normal]
    norm_num [vecLength, Real.sqrt_one]
  exact ⟨hab, hac, hbc, hdot,
    (claim_C4_theorem ⟨0, 0, 1⟩ ⟨0, 0, 0⟩ ⟨1, 0, 0⟩ ⟨0, 1, 0⟩ ⟨10, 20, 30⟩
      hab hac hbc).2.2.2.1 hdot⟩

/-! Claim C9 -/

/-- C9 counterexample: for the facet (0,0,0), (0,0,1), (1,1,0) — whose
normal is perpendicular to the scene's light — carrying its own base colour
(7,7,7), the drawn colour is computed from the scene-wide facet colour
(100,255,100), giving (50,127,50); computing it from the facet's own base
colour, as the claim states, would give (3,3,3). -/
theorem claim_C9_counterexample :
    drawn_colour scene_light scene_facet_colour
        [⟨0, 0, 0⟩, ⟨0, 0, 1⟩, ⟨1, 1, 0⟩] ⟨0, 1, 2, ⟨7, 7, 7⟩⟩
      ≠ claimed_drawn_colour scene_light
        [⟨0, 0, 0⟩, ⟨0, 0, 1⟩, ⟨1, 1, 0⟩] ⟨0, 1, 2, ⟨7, 7, 7⟩⟩ := by
  have hdot : facet_dot scene_light ⟨0, 0, 0⟩ ⟨0, 0, 1⟩ ⟨1, 1, 0⟩ = 0 := by
    rw [facet_dot, facet_normal, scene_light]
    norm_num [vecLength, Real.sqrt_one]
  have hi : facet_intensity scene_light ⟨0, 0, 0⟩ ⟨0, 0, 1⟩ ⟨1, 1, 0⟩ = 1 / 2 := by
    rw [facet_intensity, hdot, clampAngle_eq_clamp]
    norm_num [Real.arccos_zero]
    field_simp
    ring
  have hdrawn : drawn_colour scene_light scene_facet_colour
      [⟨0, 0, 0⟩, ⟨0, 0, 1⟩, ⟨1, 1, 0⟩] ⟨0, 1, 2, ⟨7, 7, 7⟩⟩ = ⟨50, 127, 50⟩ := by
    show gouraud_shading scene_light ⟨0, 0, 0⟩ ⟨0, 0, 1⟩ ⟨1, 1, 0⟩ scene_facet_colour
      = ⟨50, 127, 50⟩
    rw [gouraud_shading, hi, scene_facet_colour]
    norm_num [RGB.mk.injEq, Int.floor_eq_iff]
  have hclaimed : claimed_drawn_colour scene_light
      [⟨0, 0, 0⟩, ⟨0, 0, 1⟩, ⟨1, 1, 0⟩] ⟨0, 1, 2, ⟨7, 7, 7⟩⟩ = ⟨3, 3, 3⟩ := by
    show gouraud_shading scene_light ⟨0, 0, 0⟩ ⟨0, 0, 1⟩ ⟨1, 1, 0⟩ (⟨7, 7, 7⟩ : RGB)
      = ⟨3, 3, 3⟩
    rw [gouraud_shading, hi]
    norm_num [RGB.mk.injEq, Int.floor_eq_iff]
  rw [hdrawn, hclaimed]
  decide

/-- C9 (amended): in filled mode the colour passed to the shader — and hence
the drawn colour — is always computed from the scene-wide facet colour
(100,255,100); the base colour carried by the facet (assigned at mesh load)
has no effect on the drawn colour. -/
theorem claim_C9_theorem (light : Vec3) (facet_colour : RGB) (vertices : List Vec3)
    (i0 i1 i2 : ℕ) (b1 b2 : RGB) :
    drawn_colour light facet_colour vertices ⟨i0, i1, i2, b1⟩
      = drawn_colour light facet_colour vertices ⟨i0, i1, i2, b2⟩ ∧
    drawn_colour light facet_colour vertices ⟨i0, i1, i2, b1⟩
      = gouraud_shading light (vertices.getD i0 ⟨0, 0, 0⟩)
          (vertices.getD i1 ⟨0, 0, 0⟩) (vertices.getD i2 ⟨0, 0, 0⟩) facet_colour :=
  ⟨rfl, rfl⟩

end SWRender
